import Mathlib

/-!
Shallow embedding of `spikeinterface/curation/model_based_curation.py`.

The Python module wraps a pre-trained sklearn pipeline: it assembles a
metrics DataFrame, calls `predict` / `predict_proba`, reconciles labels
with an optional conversion mapping, writes the results back onto the
sorting object as properties, and optionally exports a TSV file.

Conventions of the embedding:
* a pandas DataFrame is `DF`: an index of unit ids, a list of column
  names, and row-major data;
* cell values are `Val` (finite rationals, infinities, NaN) — `float32`
  precision of the `astype` cast is not modelled, only the
  infinity-to-NaN replacement that precedes it;
* JSON records (`pipeline_info` / extension params) are `Json`, an
  association structure built from cons cells;
* the sklearn pipeline is opaque: a record of its declared feature
  names and its `predict` / `predict_proba` functions;
* exceptions are `Except`; a raised error from `predict_labels` carries
  the sorting-object and file-system state at the moment of the raise,
  so that statements about which side effects had already happened are
  expressible;
* the file system is a set of existing directories plus the list of
  files written so far; writing the export TSV appends to that list.
-/

/-- A cell value of a metrics DataFrame. -/
inductive Val where
  | num (q : Rat)
  | posInf
  | negInf
  | nan
deriving DecidableEq

/-- Models `np.isinf`. -/
def Val.isinf : Val → Bool
  | .posInf => true
  | .negInf => true
  | _ => false

/-- Models `np.nan if np.isinf(x) else x` (line 96 of the source). -/
def sanitizeVal (v : Val) : Val :=
  if v.isinf then .nan else v

/-- A value stored in a sorting property: raw integer labels when no
conversion mapping is in effect, converted string labels otherwise. -/
inductive LabelVal where
  | int (i : Int)
  | str (s : String)
deriving DecidableEq

/-- A pandas DataFrame: unit-id index, column names, row-major data. -/
structure DF where
  index : List Nat
  columns : List String
  data : List (List Val)
deriving DecidableEq

/-- Models `input_data.map(lambda x: np.nan if np.isinf(x) else x)`
followed by `astype("float32")` (lines 96-97); the numeric cast is
precision-free in this model. -/
def DF.sanitize (df : DF) : DF :=
  { df with data := df.data.map (fun row => row.map sanitizeVal) }

/-- Models `pd.concat([quality_metrics, template_metrics], axis=1)`
(line 134) for tables sharing the same index, which is how the two
metric extensions of one analyzer are stored. -/
def DF.concatCols (a b : DF) : DF :=
  { index := a.index, columns := a.columns ++ b.columns,
    data := a.data.zipWith (· ++ ·) b.data }

/-- Models `df.loc[df.index.isin(unit_ids)]` (lines 137-139). -/
def DF.filterToUnits (df : DF) (units : List Nat) : DF :=
  { index := (df.index.zip df.data).filterMap
      (fun p => if units.contains p.1 then some p.1 else none),
    columns := df.columns,
    data := (df.index.zip df.data).filterMap
      (fun p => if units.contains p.1 then some p.2 else none) }

/-- Models `df[names]`: select the named columns, in that order
(line 146). Only reached after the required-metrics subset check, so
every name resolves. -/
def DF.selectCols (df : DF) (names : List String) : DF :=
  { index := df.index, columns := names,
    data := df.data.map (fun row => names.map (fun c =>
      match df.columns.indexOf? c with
      | some i => row.getD i Val.nan
      | none => Val.nan)) }

/-- A JSON object tree, as used for `pipeline_info` and extension
params: cons cells of key-value pairs, with string and integer leaves. -/
inductive Json where
  | jstr (s : String)
  | jnum (n : Int)
  | jnil
  | jfield (key : String) (val : Json) (rest : Json)
deriving DecidableEq

/-- Models Python `d[key]`: `none` is the raised `KeyError`. -/
def Json.get : Json → String → Option Json
  | .jfield k v rest, key => if k = key then some v else rest.get key
  | _, _ => none

/-- Models `json.dumps`, used at line 176 to compare parameter dicts
through their serialized form. -/
def Json.dumps : Json → String
  | .jstr s => "\"" ++ s ++ "\""
  | .jnum n => toString n
  | .jnil => "\x7b\x7d"
  | .jfield k v rest => "\x7b\"" ++ k ++ "\": " ++ v.dumps ++ ", " ++ rest.dumps ++ "\x7d"

/-- A label-conversion mapping `{old integer label: new label}`. -/
abbrev Conv := List (Int × String)

def labelConvWarning : String :=
  "Could not find `label_conversion` key in `pipeline_info.json` file"

def qualityWarning : String :=
  "Quality metrics params do not match those used to train pipeline. Check these in the 'pipeline_info.json' file."

def templateWarning : String :=
  "Template metrics metrics params do not match those used to train pipeline. Check these in the 'model_info.json' file."

def labelMismatchError : String :=
  "Labels in predictions do not match those in label_conversion"

def noUnitsError : String := "No units present in sorting data"

def missingMetricsError : String :=
  "Input data does not contain all required metrics for classification"

def phyFolderError : String :=
  "Phy folder not found in sorting annotations, or is not a directory"

/-- Parses the fields of the `label_conversion` JSON object: keys are
stringified integers, values the replacement labels (lines 87-91).
`none` models any exception caught by the bare `except:` at line 92. -/
def parseConvFields : Json → Option Conv
  | .jnil => some []
  | .jfield k (.jstr v) rest =>
    match k.toInt? with
    | some i => (parseConvFields rest).map (fun r => (i, v) :: r)
    | none => none
  | _ => none

/-- Models lines 85-93: extract and convert `label_conversion` from
`pipeline_info`, `none` when absent or unparsable. -/
def parseLabelConversion (info : Json) : Option Conv :=
  match info.get "label_conversion" with
  | some fields => parseConvFields fields
  | none => none

/-- The access chain `pipeline_info["metric_params"]["analyzer_0"]["quality_metric_params"]["qm_params"]` (lines 170-172). -/
def pipelineQualityParams (info : Json) : Option Json :=
  (((info.get "metric_params").bind (·.get "analyzer_0")).bind
    (·.get "quality_metric_params")).bind (·.get "qm_params")

/-- The access chain `pipeline_info["metric_params"]["analyzer_0"]["template_metric_params"]["metrics_kwargs"]` (lines 183-185). -/
def pipelineTemplateParams (info : Json) : Option Json :=
  (((info.get "metric_params").bind (·.get "analyzer_0")).bind
    (·.get "template_metric_params")).bind (·.get "metrics_kwargs")

/-- The template-metrics half of `_check_params_for_classification`
(lines 181-191), threaded after the quality half; `.error` models a
propagating `KeyError`. -/
def templateBranch (tmExt : Option Json) (info : Json) (ws : List String) :
    Except String (List String) :=
  match tmExt with
  | none => .ok ws
  | some tparams =>
    match pipelineTemplateParams info with
    | none => .error "KeyError"
    | some pt =>
      match tparams.get "metrics_kwargs" with
      | none => .error "KeyError"
      | some aT =>
        .ok (ws ++ if aT ≠ pt then [templateWarning] else [])

/-- Models `_check_params_for_classification` (lines 155-191): for each
metric family whose analyzer extension exists, read the training-time
params out of `pipeline_info` (a missing key raises) and warn on
mismatch. Returns the warnings emitted. -/
def checkParamsForClassification (qmExt tmExt : Option Json) (info : Json) :
    Except String (List String) :=
  match qmExt with
  | none => templateBranch tmExt info []
  | some qparams =>
    match pipelineQualityParams info with
    | none => .error "KeyError"
    | some pq =>
      match qparams.get "qm_params" with
      | none => .error "KeyError"
      | some aq =>
        templateBranch tmExt info
          (if aq.dumps ≠ pq.dumps then [qualityWarning] else [])

/-- A property value stored on the sorting object. -/
inductive PropVal where
  | labels (ls : List LabelVal)
  | nums (ps : List Rat)
deriving DecidableEq

/-- The external sorting object: unit ids, per-unit properties, and
annotations. Properties are an association list whose first binding for
a key is current, so setting a property conses a new binding. -/
structure Sorting where
  unit_ids : List Nat
  properties : List (String × PropVal)
  annotations : List (String × String)
deriving DecidableEq

/-- Models `sorting.set_property(name, value)` (lines 118-119). -/
def setProperty (s : Sorting) (name : String) (v : PropVal) : Sorting :=
  { s with properties := (name, v) :: s.properties }

/-- The written export file, as structured by `to_csv(..., sep="\t",
index_label="cluster_id")` at line 209. -/
structure TsvFile where
  sep : String
  index_label : String
  columns : List String
  rows : List (Nat × LabelVal × Rat)
deriving DecidableEq

/-- The file system visible to the module: the directories that exist
and the files written so far. -/
structure FS where
  dirs : List String
  files : List (String × TsvFile)
deriving DecidableEq

/-- The DataFrame built by `pd.DataFrame.from_dict(classified_units,
orient="index", columns=["prediction", "probability"])` serialized as a
TSV (lines 199 and 209). Unit ids are unique, so the Python dict is
modelled as the association list in insertion order. -/
def mkTsv (classified : List (Nat × LabelVal × Rat)) : TsvFile :=
  { sep := "\t", index_label := "cluster_id",
    columns := ["prediction", "probability"], rows := classified }

/-- Models `_export_to_phy` (lines 193-209): require the `phy_folder`
annotation to name an existing directory, else raise; on success write
`cluster_prediction.tsv` into it. An `.error` writes nothing. -/
def exportToPhy (classified : List (Nat × LabelVal × Rat)) (s : Sorting)
    (fs : FS) : Except String FS :=
  match s.annotations.lookup "phy_folder" with
  | none => .error phyFolderError
  | some p =>
    if fs.dirs.contains p then
      .ok { fs with files := fs.files ++ [(p ++ "/cluster_prediction.tsv", mkTsv classified)] }
    else .error phyFolderError

/-- The external analyzer, seen through the narrow interface the module
uses: its sorting object, the two metric tables, and the params of the
two metric extensions (`none` when the extension is absent). -/
structure Analyzer where
  sorting : Sorting
  quality_metrics : DF
  template_metrics : DF
  quality_ext_params : Option Json
  template_ext_params : Option Json

/-- Modelled from the spec: `try_to_get_metrics_from_analyzer` (imported
from `train_manual_curation`, not among the sources) pulls the quality
and template metric tables from the external analyzer. -/
def tryToGetMetricsFromAnalyzer (an : Analyzer) : DF × DF :=
  (an.quality_metrics, an.template_metrics)

/-- The errors `_get_metrics_for_classification` can raise; the
missing-metrics error carries the named absent columns
(`required_metrics.difference(calculated_metrics)`, line 150). -/
inductive MErr where
  | noUnits
  | missingMetrics (missing : List String)
deriving DecidableEq

/-- The message of a metric-assembly error. -/
def mErrMsg : MErr → String
  | .noUnits => noUnitsError
  | .missingMetrics _ => missingMetricsError

/-- Lines 131-139 of `_get_metrics_for_classification`: merge the two
metric tables and drop rows of units absent from the sorting. -/
def assembledMetrics (an : Analyzer) : DF :=
  ((tryToGetMetricsFromAnalyzer an).1.concatCols
    (tryToGetMetricsFromAnalyzer an).2).filterToUnits an.sorting.unit_ids

/-- Models `_get_metrics_for_classification` (lines 126-153): fail when
no row is left after the unit filter, then select exactly the required
columns in the model's order or fail naming the absent ones. -/
def getMetricsForClassification (an : Analyzer) (required : List String) :
    Except MErr DF :=
  if (assembledMetrics an).index.length = 0 then .error .noUnits
  else if required.all (fun m => (assembledMetrics an).columns.contains m) then
    .ok ((assembledMetrics an).selectCols required)
  else
    .error (.missingMetrics
      (required.filter (fun m => !(assembledMetrics an).columns.contains m)))

/-- The opaque sklearn pipeline: its declared input features and its
prediction interfaces. -/
structure Pipeline where
  feature_names_in : List String
  predict : DF → List Int
  predict_proba : DF → List (List Rat)

/-- Models `np.max(probabilities, axis=1)` on one row (line 102);
`predict_proba` rows are nonempty probability vectors. -/
def rowMax : List Rat → Rat
  | [] => 0
  | h :: t => t.foldl max h

/-- One label substituted through the conversion mapping (line 109);
only reached under the subset check, so the lookup succeeds. -/
def applyConv (c : Conv) (p : Int) : LabelVal :=
  match c.lookup p with
  | some s => .str s
  | none => .str ""

/-- The predictions as they are stored and returned: substituted through
the mapping when one is in effect (line 109), raw integers otherwise. -/
def convertPreds (conv : Option Conv) (preds : List Int) : List LabelVal :=
  match conv with
  | some c => preds.map (applyConv c)
  | none => preds.map LabelVal.int

/-- Models `set(predictions).issubset(label_conversion.keys())`
(line 106); vacuously true when no mapping is in effect. -/
def convCheckPasses (conv : Option Conv) (preds : List Int) : Bool :=
  match conv with
  | some c => preds.all (fun p => (c.lookup p).isSome)
  | none => true

/-- Models lines 85-93: the conversion mapping in effect — the explicit
argument, else the one parsed from `pipeline_info`, with a warning when
that parse fails. -/
def effectiveConversion (pinfo : Option Json) (lc : Option Conv) :
    Option Conv × List String :=
  match pinfo, lc with
  | some info, none =>
    match parseLabelConversion info with
    | some c => (some c, [])
    | none => (none, [labelConvWarning])
  | _, _ => (lc, [])

/-- Lines 76-80 of `predict_labels`: the input table is assembled from
the analyzer when not caller-supplied; a caller-supplied DataFrame is
used as given. -/
def inputTable (pipe : Pipeline) (an : Analyzer) (input_data : Option DF) :
    Except String DF :=
  match input_data with
  | none =>
    match getMetricsForClassification an pipe.feature_names_in with
    | .ok d => .ok d
    | .error e => .error (mErrMsg e)
  | some d => .ok d

/-- Lines 82-83 of `predict_labels`: run the parameter-consistency check
exactly when `pipeline_info` is given. -/
def checkStep (an : Analyzer) (pinfo : Option Json) :
    Except String (List String) :=
  match pinfo with
  | some info =>
    checkParamsForClassification an.quality_ext_params an.template_ext_params info
  | none => .ok []

/-- Lines 76-97 of `predict_labels`, assembled: input table, parameter
check, conversion resolution, sanitization. Returns the exact table
handed to the model, the mapping in effect, and the warnings so far. -/
def prepSteps (pipe : Pipeline) (an : Analyzer) (lc : Option Conv)
    (input_data : Option DF) (pinfo : Option Json) :
    Except String (DF × Option Conv × List String) :=
  match inputTable pipe an input_data with
  | .error m => .error m
  | .ok d0 =>
    match checkStep an pinfo with
    | .error m => .error m
    | .ok ws1 =>
      .ok (d0.sanitize, (effectiveConversion pinfo lc).1,
        ws1 ++ (effectiveConversion pinfo lc).2)

/-- Python `zip(a, b, c)`: truncating three-way zip (line 114). -/
def zip3 (as : List Nat) (bs : List LabelVal) (cs : List Rat) :
    List (Nat × LabelVal × Rat) :=
  (as.zip (bs.zip cs)).map (fun p => (p.1, p.2.1, p.2.2))

/-- Models `ModelBasedClassification.predict_labels` (lines 50-124) as
a state-passing function: on success it returns the classified units,
the updated sorting object, the file system, and the warnings emitted;
a raise carries the sorting-object and file-system state at that point. -/
def predict_labels (pipe : Pipeline) (an : Analyzer) (fs : FS)
    (lc : Option Conv) (input_data : Option DF) (export_to_phy : Bool)
    (pinfo : Option Json) :
    Except (String × Sorting × FS)
      (List (Nat × LabelVal × Rat) × Sorting × FS × List String) :=
  match prepSteps pipe an lc input_data pinfo with
  | .error m => .error (m, an.sorting, fs)
  | .ok (d, conv, ws) =>
    let preds := pipe.predict d
    let probs := (pipe.predict_proba d).map rowMax
    if convCheckPasses conv preds then
      let predVals := convertPreds conv preds
      let classified := zip3 d.index predVals probs
      let s1 := setProperty an.sorting "label_prediction" (.labels predVals)
      let s2 := setProperty s1 "label_confidence" (.nums probs)
      if export_to_phy then
        match exportToPhy classified s2 fs with
        | .error m => .error (m, s2, fs)
        | .ok fs2 => .ok (classified, s2, fs2, ws)
      else .ok (classified, s2, fs, ws)
    else .error (labelMismatchError, an.sorting, fs)

/-- The warning at lines 292-294 of the source, verbatim: the string has
no `f` prefix in the Python, so the braces are literal text. -/
def multiSkopsWarning : String :=
  "There are more than 1 '.skops' file in folder \x7bfolder\x7d. Selecting \x7bskops_file\x7d. You can specify the file using the 'model_name' argument."

/-- Models the artifact selection of `_load_model_from_folder`
(lines 284-296): with an explicit name, require that file to exist;
otherwise glob `*.skops`, fail when none, and warn (keeping the first)
when several. Returns the chosen file and the warnings emitted. -/
def loadModelFromFolder (folder : String) (files : List String)
    (model_name : Option String) : Except String (String × List String) :=
  match model_name with
  | some name =>
    if files.contains name then .ok (name, [])
    else .error ("Model file " ++ folder ++ "/" ++ name ++ " not found.")
  | none =>
    match files.filter (fun f => ".skops".data.isSuffixOf f.data) with
    | [] => .error ("There are no '.skops' files in the folder " ++ folder)
    | first :: rest =>
      .ok (first, if rest.isEmpty then [] else [multiSkopsWarning])

/-- The empty DataFrame, for analyzers whose metric tables are unused. -/
def emptyDF : DF := ⟨[], [], []⟩

/-- The empty file system. -/
def fs0 : FS := ⟨[], []⟩

/-- The conversion mapping of the spec's round-trip example. -/
def convNG : Conv := [(0, "noise"), (1, "good")]

/-- A pipeline that predicts the out-of-mapping label 2. -/
def pipeC1 : Pipeline := ⟨["m"], fun _ => [2], fun _ => [[1]]⟩

/-- A one-unit, one-column metrics table. -/
def dfC1 : DF := ⟨[7], ["m"], [[Val.num 0]]⟩

/-- An analyzer with one unit and no metric extensions. -/
def anC1 : Analyzer := ⟨⟨[7], [], []⟩, emptyDF, emptyDF, none, none⟩

/-- A pipeline requiring features `a`, `b` and predicting 0 per row. -/
def pipeC2 : Pipeline :=
  ⟨["a", "b"], fun d => d.index.map (fun _ => 0), fun d => d.index.map (fun _ => [1])⟩

/-- A caller-supplied table whose columns are not the required ones. -/
def dfC2 : DF :=
  ⟨[1, 2], ["b", "a", "c"],
   [[Val.num 1, Val.num 2, Val.num 3], [Val.num 4, Val.num 5, Val.num 6]]⟩

/-- An analyzer with units 1 and 2 and no metric extensions. -/
def anC2 : Analyzer := ⟨⟨[1, 2], [], []⟩, emptyDF, emptyDF, none, none⟩

/-- An analyzer whose metric tables together provide exactly `a`, `b`. -/
def anC2w : Analyzer :=
  ⟨⟨[1], [], []⟩, ⟨[1], ["a"], [[Val.num 0]]⟩, ⟨[1], ["b"], [[Val.num 0]]⟩,
   none, none⟩

/-- The table `prepSteps` assembles from `anC2w` for features `a`, `b`. -/
def dfC2w : DF := ⟨[1], ["a", "b"], [[Val.num 0, Val.num 0]]⟩

/-- Quality-metrics extension params holding a `qm_params` entry. -/
def qmExtC3 : Json := .jfield "qm_params" .jnil .jnil

/-- An analyzer whose quality-metrics extension exists. -/
def anC3 : Analyzer := ⟨⟨[1], [], []⟩, emptyDF, emptyDF, some qmExtC3, none⟩

/-- A one-unit table for the parameter-check scenarios. -/
def dfC3 : DF := ⟨[1], ["m"], [[Val.num 0]]⟩

/-- A pipeline predicting the in-range label 0. -/
def pipeC3 : Pipeline := ⟨["m"], fun _ => [0], fun _ => [[1]]⟩

/-- Analyzer quality params: `qm_params` trained value 1. -/
def qpC3w : Json := .jfield "qm_params" (.jnum 1) .jnil

/-- Analyzer template params: `metrics_kwargs` value 3. -/
def tpC3w : Json := .jfield "metrics_kwargs" (.jnum 3) .jnil

/-- Pipeline metadata whose quality params (2) differ from the
analyzer's (1) and whose template params (3) agree. -/
def infoC3w : Json :=
  .jfield "metric_params"
    (.jfield "analyzer_0"
      (.jfield "quality_metric_params" (.jfield "qm_params" (.jnum 2) .jnil)
        (.jfield "template_metric_params"
          (.jfield "metrics_kwargs" (.jnum 3) .jnil) .jnil))
      .jnil)
    .jnil

/-- A pipeline with raw predictions `[0, 1, 0]`. -/
def pipeC4 : Pipeline :=
  ⟨["m"], fun _ => [0, 1, 0],
   fun _ => [[(1 : Rat)/2], [(3 : Rat)/4], [1]]⟩

/-- A three-unit metrics table with index `[10, 20, 30]`. -/
def dfC4 : DF := ⟨[10, 20, 30], ["m"], [[Val.num 0], [Val.num 0], [Val.num 0]]⟩

/-- An analyzer with units 10, 20, 30. -/
def anC4 : Analyzer := ⟨⟨[10, 20, 30], [], []⟩, emptyDF, emptyDF, none, none⟩

/-- A pipeline whose per-row probability vectors have distinct maxima. -/
def pipeC5 : Pipeline :=
  ⟨["m"], fun _ => [1, 0],
   fun _ => [[(1 : Rat)/4, (3 : Rat)/4], [(2 : Rat)/3, (1 : Rat)/3]]⟩

/-- A two-unit metrics table with index `[5, 6]`. -/
def dfC5 : DF := ⟨[5, 6], ["m"], [[Val.num 0], [Val.num 0]]⟩

/-- An analyzer with units 5 and 6. -/
def anC5 : Analyzer := ⟨⟨[5, 6], [], []⟩, emptyDF, emptyDF, none, none⟩

/-- An analyzer providing metrics `a` and `b` only, for a model that
will also require `c`. -/
def anC6 : Analyzer :=
  ⟨⟨[1], [], []⟩, ⟨[1], ["a"], [[Val.num 0]]⟩, ⟨[1], ["b"], [[Val.num 0]]⟩,
   none, none⟩

/-- An analyzer whose sorting has no units, though a metrics row exists. -/
def anC7 : Analyzer :=
  ⟨⟨[], [], []⟩, ⟨[1], ["a"], [[Val.num 0]]⟩, ⟨[1], [], [[]]⟩, none, none⟩

/-- A classification result with one unit, for the export scenarios. -/
def classifiedC9 : List (Nat × LabelVal × Rat) := [(1, .str "good", 1)]

/-- A sorting whose `phy_folder` annotation names `/tmp/phy`. -/
def sortingC9 : Sorting := ⟨[1], [], [("phy_folder", "/tmp/phy")]⟩

/-- A file system in which `/tmp/phy` exists. -/
def fsC9 : FS := ⟨["/tmp/phy"], []⟩

/-- A sorting carrying no annotations at all. -/
def sortingC10 : Sorting := ⟨[7], [], []⟩

/-- An analyzer around `sortingC10`. -/
def anC10 : Analyzer := ⟨sortingC10, emptyDF, emptyDF, none, none⟩

/-- C1: if a label-conversion mapping is in effect (explicit, or
defaulted from the loaded metadata) and prediction produces a label that
is not a key of it, `predict_labels` raises the label-mismatch error,
and the error state carries the original sorting object and file system:
neither `label_prediction` nor `label_confidence` has been written. -/
theorem C1_label_mismatch_leaves_state_unchanged
    (pipe : Pipeline) (an : Analyzer) (fs : FS) (lc : Option Conv)
    (input_data : Option DF) (ext : Bool) (pinfo : Option Json)
    (d : DF) (c : Conv) (ws : List String)
    (hprep : prepSteps pipe an lc input_data pinfo = .ok (d, some c, ws))
    (hmiss : convCheckPasses (some c) (pipe.predict d) = false) :
    predict_labels pipe an fs lc input_data ext pinfo =
      .error (labelMismatchError, an.sorting, fs) := by
  unfold predict_labels
  rw [hprep]
  simp [hmiss]

/-- Witness for C1: a model that can output label 2 against the mapping
`{0: "noise", 1: "good"}`. -/
theorem C1_label_mismatch_witness :
    predict_labels pipeC1 anC1 fs0 (some convNG) (some dfC1) false none =
      .error (labelMismatchError, anC1.sorting, fs0) :=
  C1_label_mismatch_leaves_state_unchanged pipeC1 anC1 fs0 (some convNG)
    (some dfC1) false none dfC1.sanitize convNG [] rfl rfl

/-- Sanitization does not change the column list. -/
theorem DF.columns_sanitize (d : DF) : d.sanitize.columns = d.columns := rfl

/-- Column selection installs exactly the requested column list. -/
theorem DF.columns_selectCols (d : DF) (names : List String) :
    (d.selectCols names).columns = names := rfl

/-- A successful metric assembly returns a table whose columns are
exactly the required features, in the model's order. -/
theorem getMetrics_ok_columns (an : Analyzer) (required : List String)
    (d : DF) (h : getMetricsForClassification an required = .ok d) :
    d.columns = required := by
  unfold getMetricsForClassification at h
  split at h
  · simp at h
  · split at h
    · simp only [Except.ok.injEq] at h
      subst h
      rfl
    · simp at h

/-- A successful `inputTable` with no caller data comes from a
successful metric assembly. -/
theorem inputTable_none_ok (pipe : Pipeline) (an : Analyzer) (d : DF)
    (h : inputTable pipe an none = .ok d) :
    getMetricsForClassification an pipe.feature_names_in = .ok d := by
  cases hg : getMetricsForClassification an pipe.feature_names_in with
  | ok d0 => simp_all [inputTable]
  | error e => simp [inputTable, hg] at h

/-- C2 counterexample: with caller-supplied `input_data` whose columns
are `[b, a, c]`, the table handed to a model requiring `[a, b]` keeps
the caller's columns — prediction is reached (the call succeeds) with a
table that is not restricted or reordered to the required features. -/
theorem C2_caller_input_not_restricted :
    prepSteps pipeC2 anC2 none (some dfC2) none = .ok (dfC2.sanitize, none, []) ∧
    dfC2.sanitize.columns = ["b", "a", "c"] ∧
    pipeC2.feature_names_in = ["a", "b"] ∧
    dfC2.sanitize.columns ≠ pipeC2.feature_names_in ∧
    (∃ r, predict_labels pipeC2 anC2 fs0 none (some dfC2) false none = .ok r) :=
  ⟨rfl, rfl, rfl, by decide, ⟨_, rfl⟩⟩

/-- C2 as amended: when the table is assembled from the analyzer
(`input_data` is `None`), the table handed to the model has exactly the
model's required feature columns in the model's order; a caller-supplied
table is handed over as-is after sanitization. -/
theorem C2_assembled_input_has_required_columns
    (pipe : Pipeline) (an : Analyzer) (lc : Option Conv)
    (pinfo : Option Json) (d : DF) (conv : Option Conv) (ws : List String)
    (hprep : prepSteps pipe an lc none pinfo = .ok (d, conv, ws)) :
    d.columns = pipe.feature_names_in := by
  unfold prepSteps at hprep
  cases hi : inputTable pipe an none with
  | error m => rw [hi] at hprep; simp at hprep
  | ok d0 =>
    rw [hi] at hprep
    cases hc : checkStep an pinfo with
    | error m => rw [hc] at hprep; simp at hprep
    | ok ws1 =>
      rw [hc] at hprep
      simp only [Except.ok.injEq, Prod.mk.injEq] at hprep
      rw [← hprep.1, DF.columns_sanitize]
      exact getMetrics_ok_columns an pipe.feature_names_in d0
        (inputTable_none_ok pipe an d0 hi)

/-- Witness for the amended C2: an analyzer providing `a` and `b`
assembles a table whose columns are exactly `[a, b]`. -/
theorem C2_assembled_input_witness : dfC2w.columns = pipeC2.feature_names_in :=
  C2_assembled_input_has_required_columns pipeC2 anC2w none none dfC2w none []
    rfl

/-- Setting a property leaves the annotations untouched. -/
theorem setProperty_annotations (s : Sorting) (name : String) (v : PropVal) :
    (setProperty s name v).annotations = s.annotations := rfl

/-- The success shape of `predict_labels` without export: once the
preparation steps succeed and the conversion check passes, the call
returns the zipped classification, sets both properties, and leaves the
file system alone. -/
theorem predict_labels_ok_no_export (pipe : Pipeline) (an : Analyzer)
    (fs : FS) (lc : Option Conv) (input_data : Option DF)
    (pinfo : Option Json) (d : DF) (conv : Option Conv) (ws : List String)
    (hprep : prepSteps pipe an lc input_data pinfo = .ok (d, conv, ws))
    (hpass : convCheckPasses conv (pipe.predict d) = true) :
    predict_labels pipe an fs lc input_data false pinfo =
      .ok (zip3 d.index (convertPreds conv (pipe.predict d))
            ((pipe.predict_proba d).map rowMax),
          setProperty
            (setProperty an.sorting "label_prediction"
              (.labels (convertPreds conv (pipe.predict d))))
            "label_confidence" (.nums ((pipe.predict_proba d).map rowMax)),
          fs, ws) := by
  unfold predict_labels
  rw [hprep]
  simp [hpass]

/-- The raising shape of `predict_labels` with export requested: when
the export step fails, the error carries the sorting object with both
properties already set, and the unchanged file system. -/
theorem predict_labels_export_error (pipe : Pipeline) (an : Analyzer)
    (fs : FS) (lc : Option Conv) (input_data : Option DF)
    (pinfo : Option Json) (d : DF) (conv : Option Conv) (ws : List String)
    (m : String)
    (hprep : prepSteps pipe an lc input_data pinfo = .ok (d, conv, ws))
    (hpass : convCheckPasses conv (pipe.predict d) = true)
    (hexp : exportToPhy
        (zip3 d.index (convertPreds conv (pipe.predict d))
          ((pipe.predict_proba d).map rowMax))
        (setProperty
          (setProperty an.sorting "label_prediction"
            (.labels (convertPreds conv (pipe.predict d))))
          "label_confidence" (.nums ((pipe.predict_proba d).map rowMax)))
        fs = .error m) :
    predict_labels pipe an fs lc input_data true pinfo =
      .error (m,
        setProperty
          (setProperty an.sorting "label_prediction"
            (.labels (convertPreds conv (pipe.predict d))))
          "label_confidence" (.nums ((pipe.predict_proba d).map rowMax)),
        fs) := by
  unfold predict_labels
  rw [hprep]
  simp [hpass, hexp]

/-- C3 counterexample: with the quality-metrics extension present and a
metadata record that lacks the `metric_params` key, the parameter check
raises a `KeyError` rather than warning, and the raise propagates out of
`predict_labels`, blocking prediction. -/
theorem C3_check_raises_on_malformed_metadata :
    checkParamsForClassification (some qmExtC3) none .jnil = .error "KeyError" ∧
    predict_labels pipeC3 anC3 fs0 none (some dfC3) false (some .jnil) =
      .error ("KeyError", anC3.sorting, fs0) :=
  ⟨rfl, rfl⟩

/-- C3 as amended: when both families' extension params are available
and the metadata record contains the expected nested keys for both
families, the check never raises — it returns normally, emitting the
quality warning exactly when the serialized quality params differ and
the template warning exactly when the template params differ. -/
theorem C3_check_warns_when_keys_present
    (qp tp info pq aq pt aT : Json)
    (hpq : pipelineQualityParams info = some pq)
    (haq : qp.get "qm_params" = some aq)
    (hpt : pipelineTemplateParams info = some pt)
    (haT : tp.get "metrics_kwargs" = some aT) :
    checkParamsForClassification (some qp) (some tp) info =
      .ok ((if aq.dumps ≠ pq.dumps then [qualityWarning] else []) ++
        (if aT ≠ pt then [templateWarning] else [])) := by
  unfold checkParamsForClassification templateBranch
  simp [hpq, haq, hpt, haT]

/-- Witness for the amended C3: quality params differ (1 trained vs 2
recorded), template params agree; the check succeeds with exactly the
quality warning. -/
theorem C3_check_warns_witness :
    checkParamsForClassification (some qpC3w) (some tpC3w) infoC3w =
      .ok [qualityWarning] := by
  rw [C3_check_warns_when_keys_present qpC3w tpC3w infoC3w (.jnum 2) (.jnum 1)
    (.jnum 3) (.jnum 3) rfl rfl rfl rfl]
  rfl

/-- C4: with the mapping `{0: "noise", 1: "good"}` in effect and raw
predictions `[0, 1, 0]`, the returned result pairs the units of the
input table's index, in order, with labels noise, good, noise, and the
`label_prediction` property holds that same converted sequence. -/
theorem C4_round_trip (pipe : Pipeline) (an : Analyzer) (fs : FS)
    (lc : Option Conv) (input_data : Option DF) (pinfo : Option Json)
    (d : DF) (ws : List String) (u1 u2 u3 : Nat) (p1 p2 p3 : Rat)
    (hprep : prepSteps pipe an lc input_data pinfo = .ok (d, some convNG, ws))
    (hpred : pipe.predict d = [0, 1, 0])
    (hidx : d.index = [u1, u2, u3])
    (hprob : (pipe.predict_proba d).map rowMax = [p1, p2, p3]) :
    ∃ s2,
      predict_labels pipe an fs lc input_data false pinfo =
        .ok ([(u1, .str "noise", p1), (u2, .str "good", p2),
              (u3, .str "noise", p3)], s2, fs, ws) ∧
      s2.properties.lookup "label_prediction" =
        some (.labels [.str "noise", .str "good", .str "noise"]) := by
  have hpass : convCheckPasses (some convNG) (pipe.predict d) = true := by
    rw [hpred]; decide
  have h := predict_labels_ok_no_export pipe an fs lc input_data pinfo d
    (some convNG) ws hprep hpass
  rw [hpred, hidx, hprob] at h
  have hc : convertPreds (some convNG) [0, 1, 0] =
      [.str "noise", .str "good", .str "noise"] := rfl
  rw [hc] at h
  exact ⟨_, h, rfl⟩

/-- Witness for C4 at a fully concrete pipeline and table. -/
theorem C4_round_trip_witness :
    ∃ s2,
      predict_labels pipeC4 anC4 fs0 (some convNG) (some dfC4) false none =
        .ok ([(10, .str "noise", (1 : Rat)/2), (20, .str "good", (3 : Rat)/4),
              (30, .str "noise", 1)], s2, fs0, []) ∧
      s2.properties.lookup "label_prediction" =
        some (.labels [.str "noise", .str "good", .str "noise"]) :=
  C4_round_trip pipeC4 anC4 fs0 (some convNG) (some dfC4) none dfC4.sanitize
    [] 10 20 30 ((1 : Rat)/2) ((3 : Rat)/4) 1 rfl rfl rfl rfl

/-- C5: when preparation succeeds and predictions cover the index, the
result pairs each unit identifier of the table's index, in order, with
its (possibly converted) predicted label and a confidence equal to the
maximum probability of that unit's row of `predict_proba`, with both
model operations invoked on the same sanitized table `d`. -/
theorem C5_result_units_labels_confidences (pipe : Pipeline) (an : Analyzer)
    (fs : FS) (lc : Option Conv) (input_data : Option DF)
    (pinfo : Option Json) (d : DF) (conv : Option Conv) (ws : List String)
    (hprep : prepSteps pipe an lc input_data pinfo = .ok (d, conv, ws))
    (hpass : convCheckPasses conv (pipe.predict d) = true)
    (hlen1 : (pipe.predict d).length = d.index.length)
    (hlen2 : (pipe.predict_proba d).length = d.index.length) :
    ∃ s2,
      predict_labels pipe an fs lc input_data false pinfo =
        .ok (zip3 d.index (convertPreds conv (pipe.predict d))
              ((pipe.predict_proba d).map rowMax), s2, fs, ws) ∧
      (zip3 d.index (convertPreds conv (pipe.predict d))
        ((pipe.predict_proba d).map rowMax)).map Prod.fst = d.index := by
  refine ⟨_, predict_labels_ok_no_export pipe an fs lc input_data pinfo d
    conv ws hprep hpass, ?_⟩
  have l1 : (convertPreds conv (pipe.predict d)).length = d.index.length := by
    cases conv <;> simp [convertPreds, hlen1]
  have l2 : ((pipe.predict_proba d).map rowMax).length = d.index.length := by
    simp [hlen2]
  unfold zip3
  rw [List.map_map]
  have hf : (Prod.fst ∘ fun p : Nat × LabelVal × Rat => (p.1, p.2.1, p.2.2))
      = (Prod.fst : Nat × LabelVal × Rat → Nat) := rfl
  rw [hf]
  apply List.map_fst_zip
  rw [List.length_zip, l1, l2]
  simp

/-- Witness for C5 at a concrete two-unit pipeline: unit 5 gets the max
of `[1/4, 3/4]` and unit 6 the max of `[2/3, 1/3]`. -/
theorem C5_result_witness :
    ∃ s2,
      predict_labels pipeC5 anC5 fs0 none (some dfC5) false none =
        .ok (zip3 dfC5.sanitize.index
              (convertPreds none (pipeC5.predict dfC5.sanitize))
              ((pipeC5.predict_proba dfC5.sanitize).map rowMax), s2, fs0, []) ∧
      (zip3 dfC5.sanitize.index
        (convertPreds none (pipeC5.predict dfC5.sanitize))
        ((pipeC5.predict_proba dfC5.sanitize).map rowMax)).map Prod.fst =
        dfC5.sanitize.index :=
  C5_result_units_labels_confidences pipeC5 anC5 fs0 none (some dfC5) none
    dfC5.sanitize none [] rfl rfl rfl rfl

/-- C6: when the required features are not all among the columns of the
merged-and-filtered metrics table (and units remain), assembly fails
with the missing-metrics error naming exactly the absent columns. -/
theorem C6_missing_metrics_error (an : Analyzer) (required : List String)
    (hrows : (assembledMetrics an).index.length ≠ 0)
    (hmiss : required.all
      (fun m => (assembledMetrics an).columns.contains m) = false) :
    getMetricsForClassification an required =
      .error (.missingMetrics (required.filter
        (fun m => !(assembledMetrics an).columns.contains m))) ∧
    ∀ x, x ∈ required.filter
        (fun m => !(assembledMetrics an).columns.contains m) ↔
      (x ∈ required ∧ x ∉ (assembledMetrics an).columns) := by
  constructor
  · unfold getMetricsForClassification
    simp only [List.all_eq_false] at hmiss
    obtain ⟨x, hx, hnx⟩ := hmiss
    simp [hrows]
    have hnx' : x ∉ (assembledMetrics an).columns := by simpa using hnx
    exact ⟨x, hx, hnx'⟩
  · intro x
    simp [List.mem_filter]

/-- Witness for C6: a model requiring `{a, b, c}` against a table
offering only `a` and `b` fails naming exactly `c`. -/
theorem C6_missing_metrics_witness :
    getMetricsForClassification anC6 ["a", "b", "c"] =
      .error (.missingMetrics ["c"]) ∧
    ("c" ∈ ["a", "b", "c"] ∧ "c" ∉ (assembledMetrics anC6).columns) :=
  ⟨(C6_missing_metrics_error anC6 ["a", "b", "c"] (by decide) (by decide)).1,
   ((C6_missing_metrics_error anC6 ["a", "b", "c"] (by decide) (by decide)).2
     "c").mp (by decide)⟩

/-- C7: when the merged metrics table has zero rows after restricting to
the sorting's current units, assembly fails with the no-units error. -/
theorem C7_no_units_error (an : Analyzer) (required : List String)
    (h : (assembledMetrics an).index.length = 0) :
    getMetricsForClassification an required = .error .noUnits := by
  unfold getMetricsForClassification
  simp [h]

/-- Witness for C7: a metrics row whose unit is absent from the sorting
leaves zero rows, and assembly raises the no-units error. -/
theorem C7_no_units_witness :
    getMetricsForClassification anC7 ["a"] = .error .noUnits :=
  C7_no_units_error anC7 ["a"] (by decide)

set_option maxRecDepth 40000 in
/-- C8, evaluated at the failing input: a folder with two artifact files
loads without raising, deterministically keeps the first file, and emits
one warning — but that warning is the verbatim template text (the Python
string lacks an `f` prefix), so the name of the chosen file does not
occur in it; a folder with zero artifact files fails. -/
theorem C8_multiple_artifacts_selection :
    loadModelFromFolder "model_folder" ["a.skops", "b.skops"] none =
      .ok ("a.skops", [multiSkopsWarning]) ∧
    ¬ ("a.skops".data <:+: multiSkopsWarning.data) ∧
    loadModelFromFolder "model_folder" [] none =
      .error ("There are no '.skops' files in the folder model_folder") :=
  ⟨rfl, by decide, rfl⟩

/-- C9: export fails with the descriptive error when the `phy_folder`
annotation is missing or names a non-directory (and then returns no file
system, so nothing is written); otherwise it writes exactly one new
file, `cluster_prediction.tsv` under that directory, tab-separated, with
the index column labeled `cluster_id` and columns prediction,
probability. -/
theorem C9_export_contract (classified : List (Nat × LabelVal × Rat))
    (s : Sorting) (fs : FS) :
    ((s.annotations.lookup "phy_folder" = none ∨
      ∃ p, s.annotations.lookup "phy_folder" = some p ∧
        fs.dirs.contains p = false) →
      exportToPhy classified s fs = .error phyFolderError) ∧
    (∀ p, s.annotations.lookup "phy_folder" = some p →
      fs.dirs.contains p = true →
      exportToPhy classified s fs =
        .ok { fs with files :=
          fs.files ++ [(p ++ "/cluster_prediction.tsv", mkTsv classified)] }) ∧
    (mkTsv classified).sep = "\t" ∧
    (mkTsv classified).index_label = "cluster_id" ∧
    (mkTsv classified).columns = ["prediction", "probability"] := by
  refine ⟨?_, ?_, rfl, rfl, rfl⟩
  · rintro (h | ⟨p, hp, hdir⟩)
    · unfold exportToPhy
      rw [h]
    · unfold exportToPhy
      rw [hp]
      have hd : p ∉ fs.dirs := by simpa using hdir
      simp [hd]
  · intro p hp hdir
    unfold exportToPhy
    rw [hp]
    have hd : p ∈ fs.dirs := by simpa using hdir
    simp [hd]

/-- Witness for C9: a present directory receives the file; a dangling
annotation raises. -/
theorem C9_export_witness :
    exportToPhy classifiedC9 sortingC9 fsC9 =
      .ok { fsC9 with
        files := [("/tmp/phy/cluster_prediction.tsv", mkTsv classifiedC9)] } ∧
    exportToPhy classifiedC9 ⟨[1], [], [("phy_folder", "/nope")]⟩ fsC9 =
      .error phyFolderError :=
  ⟨(C9_export_contract classifiedC9 sortingC9 fsC9).2.1 "/tmp/phy" rfl rfl,
   (C9_export_contract classifiedC9 ⟨[1], [], [("phy_folder", "/nope")]⟩
     fsC9).1 (Or.inr ⟨"/nope", rfl, rfl⟩)⟩

/-- C10: with export requested and the `phy_folder` annotation missing
or invalid, `predict_labels` raises — and the error state already holds
the freshly written `label_prediction` and `label_confidence`
properties, while the file system is unchanged. -/
theorem C10_properties_persist_on_export_failure (pipe : Pipeline)
    (an : Analyzer) (fs : FS) (lc : Option Conv) (input_data : Option DF)
    (pinfo : Option Json) (d : DF) (conv : Option Conv) (ws : List String)
    (hprep : prepSteps pipe an lc input_data pinfo = .ok (d, conv, ws))
    (hpass : convCheckPasses conv (pipe.predict d) = true)
    (hann : an.sorting.annotations.lookup "phy_folder" = none ∨
      ∃ p, an.sorting.annotations.lookup "phy_folder" = some p ∧
        fs.dirs.contains p = false) :
    ∃ s2,
      predict_labels pipe an fs lc input_data true pinfo =
        .error (phyFolderError, s2, fs) ∧
      s2.properties.lookup "label_prediction" =
        some (.labels (convertPreds conv (pipe.predict d))) ∧
      s2.properties.lookup "label_confidence" =
        some (.nums ((pipe.predict_proba d).map rowMax)) := by
  have hexp : exportToPhy
      (zip3 d.index (convertPreds conv (pipe.predict d))
        ((pipe.predict_proba d).map rowMax))
      (setProperty
        (setProperty an.sorting "label_prediction"
          (.labels (convertPreds conv (pipe.predict d))))
        "label_confidence" (.nums ((pipe.predict_proba d).map rowMax)))
      fs = .error phyFolderError := by
    rcases hann with h | ⟨p, hp, hdir⟩
    · unfold exportToPhy
      rw [setProperty_annotations, setProperty_annotations, h]
    · unfold exportToPhy
      rw [setProperty_annotations, setProperty_annotations, hp]
      have hd : p ∉ fs.dirs := by simpa using hdir
      simp [hd]
  exact ⟨_, predict_labels_export_error pipe an fs lc input_data pinfo d conv
    ws phyFolderError hprep hpass hexp, rfl, rfl⟩

/-- Witness for C10: a sorting with no annotations, export requested;
the raise carries the updated properties. -/
theorem C10_properties_persist_witness :
    ∃ s2,
      predict_labels pipeC3 anC10 fs0 none (some dfC3) true none =
        .error (phyFolderError, s2, fs0) ∧
      s2.properties.lookup "label_prediction" =
        some (.labels (convertPreds none (pipeC3.predict dfC3.sanitize))) ∧
      s2.properties.lookup "label_confidence" =
        some (.nums ((pipeC3.predict_proba dfC3.sanitize).map rowMax)) :=
  C10_properties_persist_on_export_failure pipeC3 anC10 fs0 none (some dfC3)
    none dfC3.sanitize none [] rfl rfl (Or.inl rfl)
